import Mathlib

/-
Formal model of the HR sample-data generator
(src/sample_data/generate_sample_data.py).

Modelling conventions:

* The script's only source of randomness is Python's global `random`
  module, seeded once.  Each generator loop iteration consumes a fixed
  tuple of draws; we model one loop iteration per table as a pure
  function of an explicit record of draws, together with a validity
  predicate expressing the ranges the library guarantees
  (`random.randint(a, b)` gives `a ≤ v ≤ b`, `random.choice(l)` gives an
  index `< l.length`, `random.uniform(a, b)` gives `a ≤ v ≤ b`,
  `random.randrange(n)` gives `v < n` and raises for `n ≤ 0`).

* Python `datetime` values are modelled by `PyDateTime`: a day number
  (proleptic-Gregorian ordinal, as in `datetime.toordinal`) plus
  hour/minute/second fields.  `timedelta(days = k)` adds `k` to the day
  number and leaves the time of day unchanged; `.replace(hour, minute)`
  replaces those two fields and keeps `second`.  `(b - a).seconds` for
  datetimes on the same day is the normalised seconds part of the
  difference, i.e. the difference of the second counts modulo 86400.
  Date-formatting (`strftime`) is injective in the formatted fields, so
  record fields hold the underlying day number / time instead of the
  formatted string.

* Python's `round(x, n)` is modelled by `pyRound`: exact round-half-even
  of a rational to `n` decimal digits.  Every quantity the script rounds
  sits at a distance of at least 0.002 decimal places from a rounding
  midpoint, far above the binary floating-point representation error, so
  the exact-rational model agrees with the float computation on every
  branch the claims depend on.

* `datetime.now()` is an explicit `now : PyDateTime` argument to every
  record generator that reads the clock.
-/

namespace HR

/-- Round a rational to the nearest integer, ties to the even integer
(the rounding used by Python's builtin `round`). -/
def rhe (q : ℚ) : ℤ :=
  if q - ⌊q⌋ < 1/2 then ⌊q⌋
  else if 1/2 < q - ⌊q⌋ then ⌊q⌋ + 1
  else if ⌊q⌋ % 2 = 0 then ⌊q⌋ else ⌊q⌋ + 1

/-- Model of Python's `round(x, n)`: round-half-even to `n` decimal
digits. -/
def pyRound (x : ℚ) (n : ℕ) : ℚ := (rhe (x * 10 ^ n) : ℚ) / 10 ^ n

/-- A Python `datetime`: proleptic-Gregorian day number plus time of
day.  Microseconds are omitted: no printed or derived value of the
script depends on them. -/
structure PyDateTime where
  day : ℤ
  hour : ℕ
  minute : ℕ
  second : ℕ

/-- Minutes after midnight of the time of day. -/
def PyDateTime.minOfDay (t : PyDateTime) : ℕ := t.hour * 60 + t.minute

/-- Seconds after midnight of the time of day. -/
def PyDateTime.secOfDay (t : PyDateTime) : ℕ :=
  t.hour * 3600 + t.minute * 60 + t.second

/-- Model of `random.choice(l)` evaluated at a drawn index. -/
def choice {α : Type} [Inhabited α] (l : List α) (i : ℕ) : α := l.getD i default

def LAST_NAMES : List String :=
  ["张", "王", "李", "赵", "陈", "刘", "杨", "黄", "周", "吴",
   "徐", "孙", "马", "朱", "胡", "郭", "何", "高", "林", "罗"]

def FIRST_NAMES : List String :=
  ["伟", "芳", "娜", "敏", "静", "丽", "强", "磊", "军", "洋",
   "勇", "艳", "杰", "涛", "明", "超", "秀英", "霞", "平", "刚",
   "桂英", "建华", "建国", "国强", "志强", "秀兰", "桂兰", "春梅"]

/-- `generate_name`: a random surname concatenated with a random given
name, modelled on the two drawn indices. -/
def generate_name (i j : ℕ) : String :=
  choice LAST_NAMES i ++ choice FIRST_NAMES j

/-- `random_date(start_date, end_date)`: draws
`random.randrange(days_between)` and adds that many days to
`start_date`.  `randrange` raises for an empty range
(`days_between ≤ 0`), modelled as `none`.  Dates are modelled at day
granularity: every call site of the script passes datetimes a whole
number of days apart. -/
def random_date (start_date end_date : ℤ) (r : ℕ) : Option ℤ :=
  if end_date - start_date ≤ 0 then none else some (start_date + r)

/- ==================== 3. 考勤记录表 generate_attendance ==================== -/

/-- Draws consumed by one loop iteration of `generate_attendance`:
`random.randint(1, 30)` day offset, `random.randint(0, 60)` raw check-in
minute, check-out hour `random.randint(17, 18)` and minute, the status
pick, the employee number `random.randint(1, 20)`, the two name indices,
and the location / punch-source / note picks. -/
structure AttendanceDraws where
  dayOffset : ℕ
  rawMinute : ℕ
  outHour : ℕ
  outMinute : ℕ
  statusIdx : ℕ
  empNo : ℕ
  lastIdx : ℕ
  firstIdx : ℕ
  locIdx : ℕ
  srcIdx : ℕ
  noteIdx : ℕ

/-- Ranges guaranteed by the `random` calls of `generate_attendance`. -/
abbrev AttendanceDraws.Valid (d : AttendanceDraws) : Prop :=
  1 ≤ d.dayOffset ∧ d.dayOffset ≤ 30 ∧
  d.rawMinute ≤ 60 ∧
  (d.outHour = 17 ∨ d.outHour = 18) ∧
  (d.outHour = 17 → 30 ≤ d.outMinute) ∧ d.outMinute ≤ 59 ∧
  d.statusIdx < 5 ∧
  1 ≤ d.empNo ∧ d.empNo ≤ 20 ∧
  d.lastIdx < 20 ∧ d.firstIdx < 28 ∧
  d.locIdx < 3 ∧ d.srcIdx < 4 ∧ d.noteIdx < 4

/-- The rebased check-in hour: `9` when the raw minute draw exceeds 30,
else the initial `8`. -/
def check_in_hour (d : AttendanceDraws) : ℕ :=
  if 30 < d.rawMinute then 9 else 8

/-- The rebased check-in minute: `rawMinute - 30` when the raw draw
exceeds 30, else the raw draw. -/
def check_in_minute (d : AttendanceDraws) : ℕ :=
  if 30 < d.rawMinute then d.rawMinute - 30 else d.rawMinute

/-- The 考勤状态 field: `迟到` when the rebased minute exceeds 30 in the
9 o'clock hour, else `早退` when the check-out hour is before 18, else a
weighted pick among 正常/请假. -/
def attendance_status (d : AttendanceDraws) : String :=
  if 30 < check_in_minute d ∧ check_in_hour d = 9 then "迟到"
  else if d.outHour < 18 then "早退"
  else choice ["正常", "正常", "正常", "正常", "请假"] d.statusIdx

/-- One row of 考勤记录表.  `attendanceDate` is the day number printed
as 考勤日期; `checkIn`/`checkOut` are the datetimes printed as the punch
times. -/
structure AttendanceRecord where
  empNo : ℕ
  name : String
  attendanceDate : ℤ
  checkIn : PyDateTime
  checkOut : PyDateTime
  workHours : ℚ
  status : String
  lateMinutes : ℤ
  earlyMinutes : ℤ
  location : String
  punchSource : String
  note : String

/-- One loop iteration of `generate_attendance`, as a function of the
clock reading `now` and the iteration's draws. -/
def generate_attendance_record (now : PyDateTime) (d : AttendanceDraws) :
    AttendanceRecord :=
  let attendance_day : ℤ := now.day - d.dayOffset
  let check_in_time : PyDateTime :=
    ⟨attendance_day, check_in_hour d, check_in_minute d, now.second⟩
  let check_out_time : PyDateTime :=
    ⟨attendance_day, d.outHour, d.outMinute, now.second⟩
  let work_hours : ℚ :=
    pyRound (((((check_out_time.secOfDay : ℤ) - (check_in_time.secOfDay : ℤ)) % 86400 : ℤ) : ℚ) / 3600) 2
  { empNo := d.empNo
    name := generate_name d.lastIdx d.firstIdx
    attendanceDate := attendance_day
    checkIn := check_in_time
    checkOut := check_out_time
    workHours := work_hours
    status := attendance_status d
    lateMinutes :=
      if check_in_hour d = 9 then max 0 ((check_in_minute d : ℤ) - 30) else 0
    earlyMinutes :=
      max 0 ((18 * 60 : ℤ) - ((d.outHour : ℤ) * 60 + (d.outMinute : ℤ)))
    location := choice ["公司总部", "分公司", "客户现场"] d.locIdx
    punchSource := choice ["钉钉", "钉钉", "钉钉", "手动录入"] d.srcIdx
    note :=
      if attendance_status d = "正常" then ""
      else choice ["交通拥堵", "临时会议", "外出办事", ""] d.noteIdx }

/- ==================== 4. 年假管理表 generate_annual_leaves ==================== -/

def LEAVE_TOTALS : List ℕ := [5, 7, 10, 12, 15]

/-- Draws consumed by one loop iteration of `generate_annual_leaves`:
the total-days pick, the `random.uniform(0, total_days)` used-days draw,
the name indices, 调休 `random.randint(0, 3)`, 已使用调休
`random.randint(0, 2)` and 工龄 `random.randint(1, 10)`. -/
structure LeaveDraws where
  totalIdx : ℕ
  usedDraw : ℚ
  lastIdx : ℕ
  firstIdx : ℕ
  compDays : ℕ
  compUsed : ℕ
  seniority : ℕ

/-- Ranges guaranteed by the `random` calls of `generate_annual_leaves`. -/
abbrev LeaveDraws.Valid (d : LeaveDraws) : Prop :=
  d.totalIdx < 5 ∧ 0 ≤ d.usedDraw ∧
  d.usedDraw ≤ (choice LEAVE_TOTALS d.totalIdx : ℕ) ∧
  d.lastIdx < 20 ∧ d.firstIdx < 28 ∧
  d.compDays ≤ 3 ∧ d.compUsed ≤ 2 ∧ 1 ≤ d.seniority ∧ d.seniority ≤ 10

/-- One row of 年假管理表. -/
structure LeaveRecord where
  empNo : ℕ
  name : String
  year : ℕ
  totalDays : ℕ
  usedDays : ℚ
  remainingDays : ℚ
  annualUsed : ℚ
  sickUsed : ℚ
  personalUsed : ℚ
  compDays : ℕ
  compUsed : ℕ
  seniority : ℕ
  status : String

/-- One loop iteration of `generate_annual_leaves` (loop index `i`). -/
def generate_annual_leave_record (i : ℕ) (d : LeaveDraws) : LeaveRecord :=
  let total_days : ℕ := choice LEAVE_TOTALS d.totalIdx
  let used_days : ℚ := pyRound d.usedDraw 1
  { empNo := i + 1
    name := generate_name d.lastIdx d.firstIdx
    year := 2024
    totalDays := total_days
    usedDays := used_days
    remainingDays := pyRound ((total_days : ℚ) - used_days) 1
    annualUsed := pyRound (used_days * (6/10)) 1
    sickUsed := pyRound (used_days * (2/10)) 1
    personalUsed := pyRound (used_days * (2/10)) 1
    compDays := d.compDays
    compUsed := d.compUsed
    seniority := d.seniority
    status := "生效" }

/- ==================== 5. 社保公积金表 generate_social_security ==================== -/

def BASE_AMOUNTS : List ℕ := [5000, 6000, 8000, 10000, 12000, 15000, 20000]

/-- Draws consumed by one loop iteration of `generate_social_security`. -/
structure SocialDraws where
  baseIdx : ℕ
  lastIdx : ℕ
  firstIdx : ℕ
  monthOffset : ℕ
  payIdx : ℕ

/-- Ranges guaranteed by the `random` calls of
`generate_social_security`. -/
abbrev SocialDraws.Valid (d : SocialDraws) : Prop :=
  d.baseIdx < 7 ∧ d.lastIdx < 20 ∧ d.firstIdx < 28 ∧
  d.monthOffset ≤ 180 ∧ d.payIdx < 3

/-- One row of 社保公积金表.  `yearMonthDay` is the day number of the
datetime whose `%Y-%m` is printed as 年月. -/
structure SocialSecurityRecord where
  empNo : ℕ
  name : String
  yearMonthDay : ℤ
  baseAmount : ℚ
  pensionCompany : ℚ
  pensionPersonal : ℚ
  medicalCompany : ℚ
  medicalPersonal : ℚ
  unemploymentCompany : ℚ
  unemploymentPersonal : ℚ
  injuryCompany : ℚ
  maternityCompany : ℚ
  housingCompany : ℚ
  housingPersonal : ℚ
  companyTotal : ℚ
  personalTotal : ℚ
  grandTotal : ℚ
  payStatus : String

/-- One loop iteration of `generate_social_security` (loop index `i`).
The decimal rate literals of the source (`0.16`, `0.007`, …) are the
exact rationals they denote. -/
def generate_social_security_record (now : PyDateTime) (i : ℕ)
    (d : SocialDraws) : SocialSecurityRecord :=
  let base_amount : ℚ := (choice BASE_AMOUNTS d.baseIdx : ℕ)
  let pension_company := pyRound (base_amount * (16/100)) 2
  let pension_personal := pyRound (base_amount * (8/100)) 2
  let medical_company := pyRound (base_amount * (10/100)) 2
  let medical_personal := pyRound (base_amount * (2/100)) 2
  let unemployment_company := pyRound (base_amount * (7/1000)) 2
  let unemployment_personal := pyRound (base_amount * (3/1000)) 2
  let injury_company := pyRound (base_amount * (5/1000)) 2
  let maternity_company := pyRound (base_amount * (8/1000)) 2
  let housing_fund_company := pyRound (base_amount * (12/100)) 2
  let housing_fund_personal := pyRound (base_amount * (12/100)) 2
  let total_company := pension_company + medical_company +
    unemployment_company + injury_company + maternity_company +
    housing_fund_company
  let total_personal := pension_personal + medical_personal +
    unemployment_personal + housing_fund_personal
  { empNo := i + 1
    name := generate_name d.lastIdx d.firstIdx
    yearMonthDay := now.day - d.monthOffset
    baseAmount := base_amount
    pensionCompany := pension_company
    pensionPersonal := pension_personal
    medicalCompany := medical_company
    medicalPersonal := medical_personal
    unemploymentCompany := unemployment_company
    unemploymentPersonal := unemployment_personal
    injuryCompany := injury_company
    maternityCompany := maternity_company
    housingCompany := housing_fund_company
    housingPersonal := housing_fund_personal
    companyTotal := pyRound total_company 2
    personalTotal := pyRound total_personal 2
    grandTotal := pyRound (total_company + total_personal) 2
    payStatus := choice ["已缴纳", "已缴纳", "待缴纳"] d.payIdx }

/- ==================== 6. 出差补助表 generate_business_trips ==================== -/

def DESTINATIONS : List String :=
  ["北京", "上海", "广州", "深圳", "杭州", "成都", "武汉", "西安", "南京", "重庆"]

def DAILY_ALLOWANCES : List ℕ := [200, 300, 400, 500]

/-- Draws consumed by one loop iteration of `generate_business_trips`:
the `random_date` offset into the 90-day window, 出差天数
`random.randint(1, 7)`, the daily-allowance pick, the accommodation rate
`random.randint(200, 800)`, 交通补助 `random.randint(500, 2000)`, the
meal rate `random.randint(100, 300)`, and the remaining picks. -/
structure TripDraws where
  startOff : ℕ
  days : ℕ
  dailyIdx : ℕ
  accomRate : ℕ
  transp : ℕ
  mealRate : ℕ
  empNo : ℕ
  lastIdx : ℕ
  firstIdx : ℕ
  destIdx : ℕ
  reasonIdx : ℕ
  approvalIdx : ℕ

/-- Ranges guaranteed by the `random` calls of
`generate_business_trips`. -/
abbrev TripDraws.Valid (d : TripDraws) : Prop :=
  d.startOff < 90 ∧ 1 ≤ d.days ∧ d.days ≤ 7 ∧ d.dailyIdx < 4 ∧
  200 ≤ d.accomRate ∧ d.accomRate ≤ 800 ∧
  500 ≤ d.transp ∧ d.transp ≤ 2000 ∧
  100 ≤ d.mealRate ∧ d.mealRate ≤ 300 ∧
  1 ≤ d.empNo ∧ d.empNo ≤ 20 ∧ d.lastIdx < 20 ∧ d.firstIdx < 28 ∧
  d.destIdx < 10 ∧ d.reasonIdx < 5 ∧ d.approvalIdx < 4

/-- One row of 出差补助表.  `tripMonthDay` is the day number of the
`now` whose `%Y%m` prefixes 出差单号. -/
structure TripRecord where
  tripMonthDay : ℤ
  seq : ℕ
  empNo : ℕ
  name : String
  destination : String
  reason : String
  startDay : ℤ
  endDay : ℤ
  days : ℕ
  dailyAllowance : ℕ
  accommodation : ℕ
  transportation : ℕ
  meal : ℕ
  total : ℕ
  approval : String
  submitDay : ℤ

/-- One loop iteration of `generate_business_trips` (loop index `i`).
`start_date = random_date(now - 90 days, now)`; the window has 90 days,
so the `randrange` succeeds and the option is `some`. -/
def generate_business_trip_record (now : PyDateTime) (i : ℕ)
    (d : TripDraws) : TripRecord :=
  let start_day : ℤ := (random_date (now.day - 90) now.day d.startOff).getD 0
  let end_day : ℤ := start_day + d.days
  let daily_allowance := choice DAILY_ALLOWANCES d.dailyIdx
  let accommodation := d.accomRate * d.days
  let transportation := d.transp
  let meal := d.mealRate * d.days
  let total := daily_allowance * d.days + accommodation + transportation + meal
  { tripMonthDay := now.day
    seq := i + 1
    empNo := d.empNo
    name := generate_name d.lastIdx d.firstIdx
    destination := choice DESTINATIONS d.destIdx
    reason := choice ["客户拜访", "项目实施", "技术培训", "业务洽谈", "会议参加"] d.reasonIdx
    startDay := start_day
    endDay := end_day
    days := d.days
    dailyAllowance := daily_allowance
    accommodation := accommodation
    transportation := transportation
    meal := meal
    total := total
    approval := choice ["待审批", "已批准", "已批准", "已支付"] d.approvalIdx
    submitDay := start_day }

/- ==================== 7. 就餐记录表 generate_meal_records ==================== -/

/-- The `meal_types` mapping: name, low price, high price. -/
def MEAL_TYPES : List (String × ℚ × ℚ) :=
  [("早餐", 5, 15), ("午餐", 15, 30), ("晚餐", 15, 35)]

/-- The discount picks `[0.5, 0.6, 0.8]` as exact rationals. -/
def DISCOUNTS : List ℚ := [5/10, 6/10, 8/10]

/-- Draws consumed by one loop iteration of `generate_meal_records`:
the meal-type pick, the `random.uniform(lo, hi)` price draw, the
discount pick and the remaining picks. -/
structure MealDraws where
  typeIdx : ℕ
  priceDraw : ℚ
  discIdx : ℕ
  empNo : ℕ
  lastIdx : ℕ
  firstIdx : ℕ
  dayOff : ℕ
  cafIdx : ℕ
  payIdx : ℕ
  rating : ℕ

/-- Ranges guaranteed by the `random` calls of `generate_meal_records`;
the price draw lies in the chosen meal type's range. -/
abbrev MealDraws.Valid (d : MealDraws) : Prop :=
  d.typeIdx < 3 ∧
  (choice MEAL_TYPES d.typeIdx).2.1 ≤ d.priceDraw ∧
  d.priceDraw ≤ (choice MEAL_TYPES d.typeIdx).2.2 ∧
  d.discIdx < 3 ∧ 1 ≤ d.empNo ∧ d.empNo ≤ 20 ∧
  d.lastIdx < 20 ∧ d.firstIdx < 28 ∧
  1 ≤ d.dayOff ∧ d.dayOff ≤ 30 ∧ d.cafIdx < 3 ∧ d.payIdx < 4 ∧
  3 ≤ d.rating ∧ d.rating ≤ 5

/-- One row of 就餐记录表. -/
structure MealRecord where
  empNo : ℕ
  name : String
  mealDay : ℤ
  mealType : String
  cafeteria : String
  originalAmount : ℚ
  subsidy : ℚ
  actualAmount : ℚ
  payMethod : String
  rating : ℕ

/-- One loop iteration of `generate_meal_records`. -/
def generate_meal_record (now : PyDateTime) (d : MealDraws) : MealRecord :=
  let meal_type := choice MEAL_TYPES d.typeIdx
  let original_amount := pyRound d.priceDraw 2
  let subsidy := pyRound (original_amount * choice DISCOUNTS d.discIdx) 2
  let actual_amount := pyRound (original_amount - subsidy) 2
  { empNo := d.empNo
    name := generate_name d.lastIdx d.firstIdx
    mealDay := now.day - d.dayOff
    mealType := meal_type.1
    cafeteria := choice ["总部一楼食堂", "总部二楼食堂", "分部食堂"] d.cafIdx
    originalAmount := original_amount
    subsidy := subsidy
    actualAmount := actual_amount
    payMethod := choice ["饭卡", "饭卡", "手机支付", "现金"] d.payIdx
    rating := d.rating }

/- ==================== rounding lemmas ==================== -/

lemma le_rhe (q : ℚ) : q - 1/2 ≤ (rhe q : ℚ) := by
  have h1 : (⌊q⌋ : ℚ) ≤ q := Int.floor_le q
  have h2 : q < ⌊q⌋ + 1 := Int.lt_floor_add_one q
  unfold rhe
  split_ifs <;> push_cast <;> linarith

lemma rhe_le (q : ℚ) : (rhe q : ℚ) ≤ q + 1/2 := by
  have h1 : (⌊q⌋ : ℚ) ≤ q := Int.floor_le q
  unfold rhe
  split_ifs <;> push_cast <;> linarith

lemma rhe_intCast (n : ℤ) : rhe (n : ℚ) = n := by
  unfold rhe
  rw [Int.floor_intCast]
  simp

lemma rhe_int_add_lt_half (z : ℤ) (r : ℚ) (h0 : 0 ≤ r) (h1 : r < 1/2) :
    rhe ((z : ℚ) + r) = z := by
  have hf : ⌊(z : ℚ) + r⌋ = z := by
    rw [Int.floor_int_add]
    have : ⌊r⌋ = 0 := Int.floor_eq_zero_iff.mpr ⟨h0, by linarith⟩
    omega
  have hfr : (z : ℚ) + r - ⌊(z : ℚ) + r⌋ = r := by rw [hf]; ring
  unfold rhe
  rw [hfr, if_pos h1, hf]

lemma rhe_int_add_half_lt (z : ℤ) (r : ℚ) (h1 : 1/2 < r) (h2 : r < 1) :
    rhe ((z : ℚ) + r) = z + 1 := by
  have hf : ⌊(z : ℚ) + r⌋ = z := by
    rw [Int.floor_int_add]
    have : ⌊r⌋ = 0 := Int.floor_eq_zero_iff.mpr ⟨by linarith, h2⟩
    omega
  have hfr : (z : ℚ) + r - ⌊(z : ℚ) + r⌋ = r := by rw [hf]; ring
  unfold rhe
  rw [hfr, if_neg (by linarith), if_pos h1, hf]

lemma pyRound_int_div_pow (m : ℤ) (n : ℕ) :
    pyRound ((m : ℚ) / 10 ^ n) n = (m : ℚ) / 10 ^ n := by
  unfold pyRound
  have h : ((m : ℚ) / 10 ^ n) * 10 ^ n = (m : ℚ) := by
    field_simp
  rw [h, rhe_intCast]

lemma pyRound_hundredth (m : ℤ) :
    pyRound ((m : ℚ) / 100) 2 = (m : ℚ) / 100 := by
  have h := pyRound_int_div_pow m 2
  norm_num at h ⊢
  exact h

lemma pyRound_nonneg (x : ℚ) (n : ℕ) (hx : 0 ≤ x) : 0 ≤ pyRound x n := by
  unfold pyRound
  have hpow : (0 : ℚ) < 10 ^ n := by positivity
  have h := le_rhe (x * 10 ^ n)
  have hmul : 0 ≤ x * 10 ^ n := mul_nonneg hx (le_of_lt hpow)
  have hq : (-1 : ℚ) < (rhe (x * 10 ^ n) : ℚ) := by linarith
  have hz : (-1 : ℤ) < rhe (x * 10 ^ n) := by exact_mod_cast hq
  have hz0 : (0 : ℤ) ≤ rhe (x * 10 ^ n) := by omega
  exact div_nonneg (by exact_mod_cast hz0) (le_of_lt hpow)

lemma pyRound_one (x : ℚ) : pyRound x 1 = (rhe (x * 10) : ℚ) / 10 := by
  unfold pyRound
  norm_num

lemma pyRound_eval_int (x : ℚ) (n : ℕ) (z : ℤ) (hx : x * 10 ^ n = (z : ℚ)) :
    pyRound x n = (z : ℚ) / 10 ^ n := by
  unfold pyRound
  rw [hx, rhe_intCast]

lemma pyRound_eval_lt (x : ℚ) (n : ℕ) (z : ℤ) (r : ℚ)
    (hx : x * 10 ^ n = (z : ℚ) + r) (h0 : 0 ≤ r) (h1 : r < 1/2) :
    pyRound x n = (z : ℚ) / 10 ^ n := by
  unfold pyRound
  rw [hx, rhe_int_add_lt_half z r h0 h1]

lemma pyRound_eval_gt (x : ℚ) (n : ℕ) (z : ℤ) (r : ℚ)
    (hx : x * 10 ^ n = (z : ℚ) + r) (h1 : 1/2 < r) (h2 : r < 1) :
    pyRound x n = ((z + 1 : ℤ) : ℚ) / 10 ^ n := by
  unfold pyRound
  rw [hx, rhe_int_add_half_lt z r h1 h2]

lemma pyRound_two_shape (x : ℚ) : ∃ m : ℤ, pyRound x 2 = (m : ℚ) / 100 := by
  refine ⟨rhe (x * 10 ^ 2), ?_⟩
  unfold pyRound
  norm_num

/-- The key arithmetic fact behind the leave-balance subtotal drift: for
`k` tenths of used days, the rounded `0.6`/`0.2`/`0.2` splits (in tenths)
sum to `k` shifted by `-1`, `+1` or `0` according to `k % 5`. -/
lemma rheSplit (k : ℤ) :
    rhe (((3 * k : ℤ) : ℚ) / 5) + 2 * rhe (((k : ℤ) : ℚ) / 5) =
      k + (if k % 5 = 2 then -1 else if k % 5 = 3 then 1 else 0) := by
  have hb : k % 5 = 0 ∨ k % 5 = 1 ∨ k % 5 = 2 ∨ k % 5 = 3 ∨ k % 5 = 4 := by
    omega
  rcases hb with h | h | h | h | h
  · obtain ⟨q, rfl⟩ : ∃ q, k = 5 * q := ⟨k / 5, by omega⟩
    have e1 : ((3 * (5 * q) : ℤ) : ℚ) / 5 = ((3 * q : ℤ) : ℚ) := by
      push_cast; ring
    have e2 : (((5 * q) : ℤ) : ℚ) / 5 = ((q : ℤ) : ℚ) := by
      push_cast; ring
    rw [e1, e2, rhe_intCast, rhe_intCast, if_neg (by omega), if_neg (by omega)]
    ring
  · obtain ⟨q, rfl⟩ : ∃ q, k = 5 * q + 1 := ⟨k / 5, by omega⟩
    have e1 : ((3 * (5 * q + 1) : ℤ) : ℚ) / 5 = ((3 * q : ℤ) : ℚ) + 3/5 := by
      push_cast; ring
    have e2 : (((5 * q + 1) : ℤ) : ℚ) / 5 = ((q : ℤ) : ℚ) + 1/5 := by
      push_cast; ring
    rw [e1, e2, rhe_int_add_half_lt _ _ (by norm_num) (by norm_num),
      rhe_int_add_lt_half _ _ (by norm_num) (by norm_num),
      if_neg (by omega), if_neg (by omega)]
    ring
  · obtain ⟨q, rfl⟩ : ∃ q, k = 5 * q + 2 := ⟨k / 5, by omega⟩
    have e1 : ((3 * (5 * q + 2) : ℤ) : ℚ) / 5 = ((3 * q + 1 : ℤ) : ℚ) + 1/5 := by
      push_cast; ring
    have e2 : (((5 * q + 2) : ℤ) : ℚ) / 5 = ((q : ℤ) : ℚ) + 2/5 := by
      push_cast; ring
    rw [e1, e2, rhe_int_add_lt_half _ _ (by norm_num) (by norm_num),
      rhe_int_add_lt_half _ _ (by norm_num) (by norm_num), if_pos (by omega)]
    ring
  · obtain ⟨q, rfl⟩ : ∃ q, k = 5 * q + 3 := ⟨k / 5, by omega⟩
    have e1 : ((3 * (5 * q + 3) : ℤ) : ℚ) / 5 = ((3 * q + 1 : ℤ) : ℚ) + 4/5 := by
      push_cast; ring
    have e2 : (((5 * q + 3) : ℤ) : ℚ) / 5 = ((q : ℤ) : ℚ) + 3/5 := by
      push_cast; ring
    rw [e1, e2, rhe_int_add_half_lt _ _ (by norm_num) (by norm_num),
      rhe_int_add_half_lt _ _ (by norm_num) (by norm_num),
      if_neg (by omega), if_pos (by omega)]
    ring
  · obtain ⟨q, rfl⟩ : ∃ q, k = 5 * q + 4 := ⟨k / 5, by omega⟩
    have e1 : ((3 * (5 * q + 4) : ℤ) : ℚ) / 5 = ((3 * q + 2 : ℤ) : ℚ) + 2/5 := by
      push_cast; ring
    have e2 : (((5 * q + 4) : ℤ) : ℚ) / 5 = ((q : ℤ) : ℚ) + 4/5 := by
      push_cast; ring
    rw [e1, e2, rhe_int_add_lt_half _ _ (by norm_num) (by norm_num),
      rhe_int_add_half_lt _ _ (by norm_num) (by norm_num),
      if_neg (by omega), if_neg (by omega)]
    ring

lemma pyRound_le_two (x : ℚ) : pyRound x 2 ≤ x + 1/200 := by
  unfold pyRound
  have h := rhe_le (x * 10 ^ 2)
  rw [div_le_iff₀ (by norm_num : (0 : ℚ) < 10 ^ 2)]
  nlinarith

lemma le_pyRound_two (x : ℚ) : x - 1/200 ≤ pyRound x 2 := by
  unfold pyRound
  have h := le_rhe (x * 10 ^ 2)
  rw [le_div_iff₀ (by norm_num : (0 : ℚ) < 10 ^ 2)]
  nlinarith

/- ==================== claim theorems ==================== -/

/-- C1: the claim says that two runs with the same fixed seed produce
identical output for all eight tables.  The draws (everything the seed
determines) are held fixed here, yet two clock readings one day apart
give different 考勤日期 fields in the attendance table: the output also
depends on `datetime.now()`, so a fixed seed alone does not reproduce
the output, contradicting the script's own seeding comment
(`设置随机种子以保证可重现性`). -/
theorem c1_theorem :
    AttendanceDraws.Valid ⟨7, 20, 18, 10, 4, 3, 1, 1, 0, 0, 0⟩ ∧
    (generate_attendance_record ⟨739536, 12, 0, 0⟩
        ⟨7, 20, 18, 10, 4, 3, 1, 1, 0, 0, 0⟩).attendanceDate ≠
      (generate_attendance_record ⟨739537, 12, 0, 0⟩
        ⟨7, 20, 18, 10, 4, 3, 1, 1, 0, 0, 0⟩).attendanceDate :=
  ⟨by decide, by decide⟩

/-- C10: `random_date` returns a date `d` with `start ≤ d < end` when
`end` is strictly later than `start` (and the drawn offset is in the
range `randrange` guarantees), and fails (`randrange` over an empty
range) when the two dates are equal. -/
theorem c10_theorem (s e : ℤ) (r : ℕ) :
    (s < e → (r : ℤ) < e - s →
      random_date s e r = some (s + r) ∧ s ≤ s + (r : ℤ) ∧ s + (r : ℤ) < e) ∧
    (s = e → random_date s e r = none) := by
  constructor
  · intro h1 h2
    refine ⟨?_, by omega, by omega⟩
    unfold random_date
    rw [if_neg (by omega)]
  · intro h
    subst h
    unfold random_date
    rw [if_pos (by omega)]

/-- Witness for C10 at a concrete strict range and at equal dates. -/
theorem c10_witness :
    random_date 100 105 2 = some (100 + 2) ∧ random_date 7 7 3 = none :=
  ⟨((c10_theorem 100 105 2).1 (by omega) (by omega)).1,
    (c10_theorem 7 7 3).2 rfl⟩

/-- C3 counterexample: the claim says the lateness field is the clamped
difference of the check-in time against the 8:30 boundary.  A reachable
record with check-in 9:05 (raw minute draw 35) has lateness 0, while
the clamped difference against 8:30 is 35. -/
theorem c3_counterexample :
    AttendanceDraws.Valid ⟨5, 35, 18, 0, 0, 3, 0, 0, 0, 0, 0⟩ ∧
    (generate_attendance_record ⟨739540, 12, 0, 30⟩
        ⟨5, 35, 18, 0, 0, 3, 0, 0, 0, 0, 0⟩).checkIn.minOfDay = 545 ∧
    (generate_attendance_record ⟨739540, 12, 0, 30⟩
        ⟨5, 35, 18, 0, 0, 3, 0, 0, 0, 0, 0⟩).lateMinutes = 0 ∧
    ¬ ((generate_attendance_record ⟨739540, 12, 0, 30⟩
          ⟨5, 35, 18, 0, 0, 3, 0, 0, 0, 0, 0⟩).lateMinutes =
        max 0 (((generate_attendance_record ⟨739540, 12, 0, 30⟩
          ⟨5, 35, 18, 0, 0, 3, 0, 0, 0, 0, 0⟩).checkIn.minOfDay : ℤ) -
          (8 * 60 + 30))) :=
  ⟨by decide, by decide, by decide, by decide⟩

/-- C3 amended: the lateness-minutes field equals the clamped
non-negative difference of the check-in time against the 9:30 boundary
(not 8:30), and the early-leave-minutes field equals the clamped
non-negative difference of the 18:00 boundary against the check-out
time. -/
theorem c3_theorem (now : PyDateTime) (d : AttendanceDraws) (hd : d.Valid) :
    (generate_attendance_record now d).lateMinutes =
      max 0 (((generate_attendance_record now d).checkIn.minOfDay : ℤ) -
        (9 * 60 + 30)) ∧
    (generate_attendance_record now d).earlyMinutes =
      max 0 ((18 * 60 : ℤ) -
        ((generate_attendance_record now d).checkOut.minOfDay : ℤ)) := by
  obtain ⟨-, -, hraw, houth, houtm17, houtm, -⟩ := hd
  simp only [generate_attendance_record, PyDateTime.minOfDay, check_in_hour,
    check_in_minute]
  constructor
  · split_ifs <;> omega
  · omega

/-- Witness for C3 at a concrete valid draw. -/
theorem c3_witness :
    AttendanceDraws.Valid ⟨9, 45, 17, 40, 2, 8, 2, 3, 1, 1, 2⟩ ∧
    ((generate_attendance_record ⟨739541, 9, 30, 5⟩
        ⟨9, 45, 17, 40, 2, 8, 2, 3, 1, 1, 2⟩).lateMinutes =
      max 0 (((generate_attendance_record ⟨739541, 9, 30, 5⟩
        ⟨9, 45, 17, 40, 2, 8, 2, 3, 1, 1, 2⟩).checkIn.minOfDay : ℤ) -
        (9 * 60 + 30)) ∧
    (generate_attendance_record ⟨739541, 9, 30, 5⟩
        ⟨9, 45, 17, 40, 2, 8, 2, 3, 1, 1, 2⟩).earlyMinutes =
      max 0 ((18 * 60 : ℤ) -
        ((generate_attendance_record ⟨739541, 9, 30, 5⟩
          ⟨9, 45, 17, 40, 2, 8, 2, 3, 1, 1, 2⟩).checkOut.minOfDay : ℤ))) :=
  ⟨by decide, c3_theorem ⟨739541, 9, 30, 5⟩ ⟨9, 45, 17, 40, 2, 8, 2, 3, 1, 1, 2⟩
    (by decide)⟩

/-- C9: the late branch of `generate_attendance` is unreachable: after
the minute rebasing, a 9 o'clock check-in always has minute in
`[1, 30]`, so the status is never 迟到 and the lateness field is always
0. -/
theorem c9_theorem (now : PyDateTime) (d : AttendanceDraws) (hd : d.Valid) :
    (generate_attendance_record now d).status ≠ "迟到" ∧
    (generate_attendance_record now d).lateMinutes = 0 := by
  obtain ⟨-, -, hraw, houth, houtm17, houtm, hst, -⟩ := hd
  have hcond : ¬ (30 < check_in_minute d ∧ check_in_hour d = 9) := by
    unfold check_in_hour check_in_minute
    split_ifs <;> omega
  constructor
  · simp only [generate_attendance_record, attendance_status, if_neg hcond]
    split_ifs
    · decide
    · interval_cases h : d.statusIdx <;> decide
  · simp only [generate_attendance_record, check_in_hour, check_in_minute]
    split_ifs <;> omega

/-- Witness for C9 at a concrete valid draw. -/
theorem c9_witness :
    AttendanceDraws.Valid ⟨3, 60, 18, 59, 0, 20, 19, 27, 2, 3, 3⟩ ∧
    ((generate_attendance_record ⟨739542, 23, 59, 59⟩
        ⟨3, 60, 18, 59, 0, 20, 19, 27, 2, 3, 3⟩).status ≠ "迟到" ∧
    (generate_attendance_record ⟨739542, 23, 59, 59⟩
        ⟨3, 60, 18, 59, 0, 20, 19, 27, 2, 3, 3⟩).lateMinutes = 0) :=
  ⟨by decide, c9_theorem ⟨739542, 23, 59, 59⟩ ⟨3, 60, 18, 59, 0, 20, 19, 27, 2, 3, 3⟩
    (by decide)⟩

/-- C4: the status is 迟到 exactly when the check-in minute-of-hour
exceeds 30 and the check-in hour is 9; otherwise it is 早退 exactly when
the check-out hour is before 18; otherwise it is one of the random picks
正常 / 请假. -/
theorem c4_theorem (now : PyDateTime) (d : AttendanceDraws) (hd : d.Valid) :
    ((generate_attendance_record now d).status = "迟到" ↔
      30 < (generate_attendance_record now d).checkIn.minute ∧
        (generate_attendance_record now d).checkIn.hour = 9) ∧
    (¬ (30 < (generate_attendance_record now d).checkIn.minute ∧
          (generate_attendance_record now d).checkIn.hour = 9) →
      ((generate_attendance_record now d).status = "早退" ↔
        (generate_attendance_record now d).checkOut.hour < 18)) ∧
    (¬ (30 < (generate_attendance_record now d).checkIn.minute ∧
          (generate_attendance_record now d).checkIn.hour = 9) →
      ¬ ((generate_attendance_record now d).checkOut.hour < 18) →
      ((generate_attendance_record now d).status = "正常" ∨
        (generate_attendance_record now d).status = "请假")) := by
  obtain ⟨-, -, hraw, houth, houtm17, houtm, hst, -⟩ := hd
  simp only [generate_attendance_record, attendance_status]
  refine ⟨?_, ?_, ?_⟩
  · by_cases hc : 30 < check_in_minute d ∧ check_in_hour d = 9
    · rw [if_pos hc]
      simp [hc]
    · rw [if_neg hc]
      constructor
      · intro h
        exfalso
        split_ifs at h
        · exact absurd h (by decide)
        · interval_cases d.statusIdx <;> exact absurd h (by decide)
      · intro h
        exact absurd h hc
  · intro hc
    rw [if_neg hc]
    by_cases ho : d.outHour < 18
    · rw [if_pos ho]
      simp [ho]
    · rw [if_neg ho]
      constructor
      · intro h
        exfalso
        interval_cases d.statusIdx <;> exact absurd h (by decide)
      · intro h
        exact absurd h ho
  · intro hc ho
    rw [if_neg hc, if_neg ho]
    interval_cases d.statusIdx <;> decide

/-- Witness for C4 at a concrete valid draw (an early-leave record). -/
theorem c4_witness :
    AttendanceDraws.Valid ⟨12, 30, 17, 31, 1, 11, 6, 9, 1, 2, 1⟩ ∧
    (((generate_attendance_record ⟨739544, 8, 15, 40⟩
        ⟨12, 30, 17, 31, 1, 11, 6, 9, 1, 2, 1⟩).status = "迟到" ↔
      30 < (generate_attendance_record ⟨739544, 8, 15, 40⟩
        ⟨12, 30, 17, 31, 1, 11, 6, 9, 1, 2, 1⟩).checkIn.minute ∧
        (generate_attendance_record ⟨739544, 8, 15, 40⟩
          ⟨12, 30, 17, 31, 1, 11, 6, 9, 1, 2, 1⟩).checkIn.hour = 9) ∧
    (¬ (30 < (generate_attendance_record ⟨739544, 8, 15, 40⟩
          ⟨12, 30, 17, 31, 1, 11, 6, 9, 1, 2, 1⟩).checkIn.minute ∧
          (generate_attendance_record ⟨739544, 8, 15, 40⟩
            ⟨12, 30, 17, 31, 1, 11, 6, 9, 1, 2, 1⟩).checkIn.hour = 9) →
      ((generate_attendance_record ⟨739544, 8, 15, 40⟩
          ⟨12, 30, 17, 31, 1, 11, 6, 9, 1, 2, 1⟩).status = "早退" ↔
        (generate_attendance_record ⟨739544, 8, 15, 40⟩
          ⟨12, 30, 17, 31, 1, 11, 6, 9, 1, 2, 1⟩).checkOut.hour < 18)) ∧
    (¬ (30 < (generate_attendance_record ⟨739544, 8, 15, 40⟩
          ⟨12, 30, 17, 31, 1, 11, 6, 9, 1, 2, 1⟩).checkIn.minute ∧
          (generate_attendance_record ⟨739544, 8, 15, 40⟩
            ⟨12, 30, 17, 31, 1, 11, 6, 9, 1, 2, 1⟩).checkIn.hour = 9) →
      ¬ ((generate_attendance_record ⟨739544, 8, 15, 40⟩
          ⟨12, 30, 17, 31, 1, 11, 6, 9, 1, 2, 1⟩).checkOut.hour < 18) →
      ((generate_attendance_record ⟨739544, 8, 15, 40⟩
          ⟨12, 30, 17, 31, 1, 11, 6, 9, 1, 2, 1⟩).status = "正常" ∨
        (generate_attendance_record ⟨739544, 8, 15, 40⟩
          ⟨12, 30, 17, 31, 1, 11, 6, 9, 1, 2, 1⟩).status = "请假"))) :=
  ⟨by decide, c4_theorem ⟨739544, 8, 15, 40⟩ ⟨12, 30, 17, 31, 1, 11, 6, 9, 1, 2, 1⟩
    (by decide)⟩

/-- C8: the worked-hours field is the check-out minus check-in
difference expressed in hours and rounded to 2 decimals, and it is
non-negative for every reachable check-in/check-out pair. -/
theorem c8_theorem (now : PyDateTime) (d : AttendanceDraws) (hd : d.Valid) :
    (generate_attendance_record now d).workHours =
      pyRound ((((generate_attendance_record now d).checkOut.secOfDay : ℚ) -
        ((generate_attendance_record now d).checkIn.secOfDay : ℚ)) / 3600) 2 ∧
    0 ≤ (generate_attendance_record now d).workHours := by
  obtain ⟨-, -, hraw, houth, houtm17, houtm, -⟩ := hd
  simp only [generate_attendance_record, PyDateTime.secOfDay]
  have hb : (0 : ℤ) ≤
      ((d.outHour * 3600 + d.outMinute * 60 + now.second : ℕ) : ℤ) -
        ((check_in_hour d * 3600 + check_in_minute d * 60 + now.second : ℕ) : ℤ) ∧
      ((d.outHour * 3600 + d.outMinute * 60 + now.second : ℕ) : ℤ) -
        ((check_in_hour d * 3600 + check_in_minute d * 60 + now.second : ℕ) : ℤ) <
        86400 := by
    unfold check_in_hour check_in_minute
    split_ifs <;> omega
  rw [Int.emod_eq_of_lt hb.1 hb.2]
  constructor
  · congr 1
    push_cast
    ring
  · apply pyRound_nonneg
    have h0 := hb.1
    apply div_nonneg _ (by norm_num : (0 : ℚ) ≤ 3600)
    exact_mod_cast h0

/-- Witness for C8 at a concrete valid draw. -/
theorem c8_witness :
    AttendanceDraws.Valid ⟨10, 0, 17, 45, 1, 7, 4, 5, 2, 2, 1⟩ ∧
    ((generate_attendance_record ⟨739545, 14, 20, 10⟩
        ⟨10, 0, 17, 45, 1, 7, 4, 5, 2, 2, 1⟩).workHours =
      pyRound ((((generate_attendance_record ⟨739545, 14, 20, 10⟩
          ⟨10, 0, 17, 45, 1, 7, 4, 5, 2, 2, 1⟩).checkOut.secOfDay : ℚ) -
        ((generate_attendance_record ⟨739545, 14, 20, 10⟩
          ⟨10, 0, 17, 45, 1, 7, 4, 5, 2, 2, 1⟩).checkIn.secOfDay : ℚ)) / 3600) 2 ∧
    0 ≤ (generate_attendance_record ⟨739545, 14, 20, 10⟩
        ⟨10, 0, 17, 45, 1, 7, 4, 5, 2, 2, 1⟩).workHours) :=
  ⟨by decide, c8_theorem ⟨739545, 14, 20, 10⟩ ⟨10, 0, 17, 45, 1, 7, 4, 5, 2, 2, 1⟩
    (by decide)⟩

/-- C2 counterexample: the claim says the three sub-category splits sum
exactly to the used-days total for any drawn counts.  For a used-days
draw of 0.3 days the splits are 0.2/0.1/0.1, which sum to 0.4 ≠ 0.3. -/
theorem c2_counterexample :
    LeaveDraws.Valid ⟨0, 3/10, 0, 0, 0, 0, 1⟩ ∧
    (generate_annual_leave_record 0 ⟨0, 3/10, 0, 0, 0, 0, 1⟩).usedDays = 3/10 ∧
    (generate_annual_leave_record 0 ⟨0, 3/10, 0, 0, 0, 0, 1⟩).annualUsed +
      (generate_annual_leave_record 0 ⟨0, 3/10, 0, 0, 0, 0, 1⟩).sickUsed +
      (generate_annual_leave_record 0 ⟨0, 3/10, 0, 0, 0, 0, 1⟩).personalUsed =
      4/10 ∧
    ¬ ((generate_annual_leave_record 0 ⟨0, 3/10, 0, 0, 0, 0, 1⟩).annualUsed +
        (generate_annual_leave_record 0 ⟨0, 3/10, 0, 0, 0, 0, 1⟩).sickUsed +
        (generate_annual_leave_record 0 ⟨0, 3/10, 0, 0, 0, 0, 1⟩).personalUsed =
      (generate_annual_leave_record 0 ⟨0, 3/10, 0, 0, 0, 0, 1⟩).usedDays) := by
  have hu : pyRound ((3/10 : ℚ)) 1 = 3/10 := by
    have h := pyRound_eval_int (3/10 : ℚ) 1 3 (by norm_num)
    norm_num at h
    exact h
  have hann : pyRound ((3/10 : ℚ) * (6/10)) 1 = 2/10 := by
    have h := pyRound_eval_gt ((3/10 : ℚ) * (6/10)) 1 1 (4/5) (by norm_num)
      (by norm_num) (by norm_num)
    rw [h]
    norm_num
  have hsick : pyRound ((3/10 : ℚ) * (2/10)) 1 = 1/10 := by
    have h := pyRound_eval_gt ((3/10 : ℚ) * (2/10)) 1 0 (3/5) (by norm_num)
      (by norm_num) (by norm_num)
    rw [h]
    norm_num
  refine ⟨⟨by norm_num, by norm_num, ?_, by norm_num, by norm_num, by norm_num,
    by norm_num, by norm_num, by norm_num⟩, ?_, ?_, ?_⟩
  · exact show (3/10 : ℚ) ≤ ((5 : ℕ) : ℚ) by norm_num
  · simp only [generate_annual_leave_record]
    exact hu
  · simp only [generate_annual_leave_record]
    rw [hu, hann, hsick]
    norm_num
  · simp only [generate_annual_leave_record]
    rw [hu, hann, hsick]
    norm_num

/-- C2 amended: with `k` the number of tenths of the rounded used-days
total, the three sub-category splits sum to the used-days total shifted
by `-0.1` when `k % 5 = 2`, by `+0.1` when `k % 5 = 3`, and exactly to
the used-days total otherwise (so the sum is always within 0.1 of the
used total). -/
theorem c2_theorem (i : ℕ) (d : LeaveDraws) :
    (generate_annual_leave_record i d).annualUsed +
      (generate_annual_leave_record i d).sickUsed +
      (generate_annual_leave_record i d).personalUsed =
    (generate_annual_leave_record i d).usedDays +
      (if rhe (d.usedDraw * 10) % 5 = 2 then -(1/10 : ℚ)
       else if rhe (d.usedDraw * 10) % 5 = 3 then (1/10 : ℚ) else 0) := by
  simp only [generate_annual_leave_record, pyRound_one]
  set k := rhe (d.usedDraw * 10) with hk
  have e6 : ((k : ℚ) / 10 * (6 / 10)) * 10 = ((3 * k : ℤ) : ℚ) / 5 := by
    push_cast
    ring
  have e2 : ((k : ℚ) / 10 * (2 / 10)) * 10 = ((k : ℤ) : ℚ) / 5 := by
    push_cast
    ring
  rw [e6, e2]
  push_cast
  have hs := rheSplit k
  by_cases h2 : k % 5 = 2
  · rw [if_pos h2] at hs ⊢
    have hq : ((rhe (((3 * k : ℤ) : ℚ) / 5) + 2 * rhe (((k : ℤ) : ℚ) / 5) : ℤ) : ℚ) =
        ((k + -1 : ℤ) : ℚ) := by
      exact_mod_cast hs
    push_cast at hq
    linarith
  · rw [if_neg h2] at hs ⊢
    by_cases h3 : k % 5 = 3
    · rw [if_pos h3] at hs ⊢
      have hq : ((rhe (((3 * k : ℤ) : ℚ) / 5) + 2 * rhe (((k : ℤ) : ℚ) / 5) : ℤ) : ℚ) =
          ((k + 1 : ℤ) : ℚ) := by
        exact_mod_cast hs
      push_cast at hq
      linarith
    · rw [if_neg h3] at hs ⊢
      have hq : ((rhe (((3 * k : ℤ) : ℚ) / 5) + 2 * rhe (((k : ℤ) : ℚ) / 5) : ℤ) : ℚ) =
          ((k + 0 : ℤ) : ℚ) := by
        exact_mod_cast hs
      push_cast at hq
      linarith

/-- C5: for every contribution record the company total is the sum of
the six company-side categories, the personal total is the sum of the
four personal-side categories, and the grand total is their sum; every
rounded category amount is an exact multiple of 0.01, so the re-rounded
totals equal the plain sums. -/
theorem c5_theorem (now : PyDateTime) (i : ℕ) (d : SocialDraws) :
    (generate_social_security_record now i d).companyTotal =
      (generate_social_security_record now i d).pensionCompany +
      (generate_social_security_record now i d).medicalCompany +
      (generate_social_security_record now i d).unemploymentCompany +
      (generate_social_security_record now i d).injuryCompany +
      (generate_social_security_record now i d).maternityCompany +
      (generate_social_security_record now i d).housingCompany ∧
    (generate_social_security_record now i d).personalTotal =
      (generate_social_security_record now i d).pensionPersonal +
      (generate_social_security_record now i d).medicalPersonal +
      (generate_social_security_record now i d).unemploymentPersonal +
      (generate_social_security_record now i d).housingPersonal ∧
    (generate_social_security_record now i d).grandTotal =
      (generate_social_security_record now i d).companyTotal +
      (generate_social_security_record now i d).personalTotal := by
  simp only [generate_social_security_record]
  set b : ℚ := ((choice BASE_AMOUNTS d.baseIdx : ℕ) : ℚ) with hb
  obtain ⟨z1, h1⟩ := pyRound_two_shape (b * (16/100))
  obtain ⟨z2, h2⟩ := pyRound_two_shape (b * (8/100))
  obtain ⟨z3, h3⟩ := pyRound_two_shape (b * (10/100))
  obtain ⟨z4, h4⟩ := pyRound_two_shape (b * (2/100))
  obtain ⟨z5, h5⟩ := pyRound_two_shape (b * (7/1000))
  obtain ⟨z6, h6⟩ := pyRound_two_shape (b * (3/1000))
  obtain ⟨z7, h7⟩ := pyRound_two_shape (b * (5/1000))
  obtain ⟨z8, h8⟩ := pyRound_two_shape (b * (8/1000))
  obtain ⟨z9, h9⟩ := pyRound_two_shape (b * (12/100))
  rw [h1, h2, h3, h4, h5, h6, h7, h8, h9]
  have hc : (z1 : ℚ)/100 + (z3 : ℚ)/100 + (z5 : ℚ)/100 + (z7 : ℚ)/100 +
      (z8 : ℚ)/100 + (z9 : ℚ)/100 =
      ((z1 + z3 + z5 + z7 + z8 + z9 : ℤ) : ℚ)/100 := by
    push_cast
    ring
  have hp : (z2 : ℚ)/100 + (z4 : ℚ)/100 + (z6 : ℚ)/100 + (z9 : ℚ)/100 =
      ((z2 + z4 + z6 + z9 : ℤ) : ℚ)/100 := by
    push_cast
    ring
  have hg : ((z1 + z3 + z5 + z7 + z8 + z9 : ℤ) : ℚ)/100 +
      ((z2 + z4 + z6 + z9 : ℤ) : ℚ)/100 =
      ((z1 + z3 + z5 + z7 + z8 + z9 + (z2 + z4 + z6 + z9) : ℤ) : ℚ)/100 := by
    push_cast
    ring
  refine ⟨?_, ?_, ?_⟩
  · rw [hc]
    exact pyRound_hundredth _
  · rw [hp]
    exact pyRound_hundredth _
  · rw [hc, hp, hg]
    simp only [pyRound_hundredth]
    exact hg.symm

/-- C6: for every trip record the total allowance is
daily allowance × days + accommodation + transportation + meal, the
accommodation and meal components are per-day rates times the day count,
and the end date is on or after the start date with days ≥ 1. -/
theorem c6_theorem (now : PyDateTime) (i : ℕ) (d : TripDraws) (hd : d.Valid) :
    (generate_business_trip_record now i d).total =
      (generate_business_trip_record now i d).dailyAllowance *
        (generate_business_trip_record now i d).days +
      (generate_business_trip_record now i d).accommodation +
      (generate_business_trip_record now i d).transportation +
      (generate_business_trip_record now i d).meal ∧
    (generate_business_trip_record now i d).accommodation =
      d.accomRate * (generate_business_trip_record now i d).days ∧
    (generate_business_trip_record now i d).meal =
      d.mealRate * (generate_business_trip_record now i d).days ∧
    (generate_business_trip_record now i d).startDay ≤
      (generate_business_trip_record now i d).endDay ∧
    1 ≤ (generate_business_trip_record now i d).days := by
  obtain ⟨-, hdays, -⟩ := hd
  simp only [generate_business_trip_record]
  refine ⟨trivial, trivial, trivial, ?_, hdays⟩
  omega

/-- Witness for C6 at a concrete valid draw. -/
theorem c6_witness :
    TripDraws.Valid ⟨10, 3, 0, 300, 700, 150, 5, 4, 4, 2, 1, 3⟩ ∧
    ((generate_business_trip_record ⟨739547, 16, 5, 33⟩ 0
        ⟨10, 3, 0, 300, 700, 150, 5, 4, 4, 2, 1, 3⟩).total =
      (generate_business_trip_record ⟨739547, 16, 5, 33⟩ 0
        ⟨10, 3, 0, 300, 700, 150, 5, 4, 4, 2, 1, 3⟩).dailyAllowance *
        (generate_business_trip_record ⟨739547, 16, 5, 33⟩ 0
          ⟨10, 3, 0, 300, 700, 150, 5, 4, 4, 2, 1, 3⟩).days +
      (generate_business_trip_record ⟨739547, 16, 5, 33⟩ 0
        ⟨10, 3, 0, 300, 700, 150, 5, 4, 4, 2, 1, 3⟩).accommodation +
      (generate_business_trip_record ⟨739547, 16, 5, 33⟩ 0
        ⟨10, 3, 0, 300, 700, 150, 5, 4, 4, 2, 1, 3⟩).transportation +
      (generate_business_trip_record ⟨739547, 16, 5, 33⟩ 0
        ⟨10, 3, 0, 300, 700, 150, 5, 4, 4, 2, 1, 3⟩).meal ∧
    (generate_business_trip_record ⟨739547, 16, 5, 33⟩ 0
        ⟨10, 3, 0, 300, 700, 150, 5, 4, 4, 2, 1, 3⟩).accommodation =
      300 * (generate_business_trip_record ⟨739547, 16, 5, 33⟩ 0
        ⟨10, 3, 0, 300, 700, 150, 5, 4, 4, 2, 1, 3⟩).days ∧
    (generate_business_trip_record ⟨739547, 16, 5, 33⟩ 0
        ⟨10, 3, 0, 300, 700, 150, 5, 4, 4, 2, 1, 3⟩).meal =
      150 * (generate_business_trip_record ⟨739547, 16, 5, 33⟩ 0
        ⟨10, 3, 0, 300, 700, 150, 5, 4, 4, 2, 1, 3⟩).days ∧
    (generate_business_trip_record ⟨739547, 16, 5, 33⟩ 0
        ⟨10, 3, 0, 300, 700, 150, 5, 4, 4, 2, 1, 3⟩).startDay ≤
      (generate_business_trip_record ⟨739547, 16, 5, 33⟩ 0
        ⟨10, 3, 0, 300, 700, 150, 5, 4, 4, 2, 1, 3⟩).endDay ∧
    1 ≤ (generate_business_trip_record ⟨739547, 16, 5, 33⟩ 0
        ⟨10, 3, 0, 300, 700, 150, 5, 4, 4, 2, 1, 3⟩).days) :=
  ⟨by decide, c6_theorem ⟨739547, 16, 5, 33⟩ 0 ⟨10, 3, 0, 300, 700, 150, 5, 4, 4, 2, 1, 3⟩
    (by decide)⟩

/-- C7: for every meal record the actual-paid amount is the original
price minus the subsidy, and the subsidy is strictly below the original
price, for every drawn meal type, price and discount fraction. -/
theorem c7_theorem (now : PyDateTime) (d : MealDraws) (hd : d.Valid) :
    (generate_meal_record now d).actualAmount =
      (generate_meal_record now d).originalAmount -
        (generate_meal_record now d).subsidy ∧
    (generate_meal_record now d).subsidy <
      (generate_meal_record now d).originalAmount := by
  obtain ⟨ht, hlo, hhi, hdisc, -⟩ := hd
  have hx5 : (5 : ℚ) ≤ d.priceDraw := by
    rcases (by omega : d.typeIdx = 0 ∨ d.typeIdx = 1 ∨ d.typeIdx = 2) with h | h | h <;>
      rw [h] at hlo
    · rw [show (choice MEAL_TYPES 0).2.1 = 5 from rfl] at hlo
      exact hlo
    · rw [show (choice MEAL_TYPES 1).2.1 = 15 from rfl] at hlo
      linarith
    · rw [show (choice MEAL_TYPES 2).2.1 = 15 from rfl] at hlo
      linarith
  have hddB : 0 ≤ choice DISCOUNTS d.discIdx ∧ choice DISCOUNTS d.discIdx ≤ 4/5 := by
    rcases (by omega : d.discIdx = 0 ∨ d.discIdx = 1 ∨ d.discIdx = 2) with h | h | h <;>
      rw [h]
    · exact show (0 : ℚ) ≤ 5/10 ∧ (5/10 : ℚ) ≤ 4/5 by norm_num
    · exact show (0 : ℚ) ≤ 6/10 ∧ (6/10 : ℚ) ≤ 4/5 by norm_num
    · exact show (0 : ℚ) ≤ 8/10 ∧ (8/10 : ℚ) ≤ 4/5 by norm_num
  simp only [generate_meal_record]
  obtain ⟨bq, hbq⟩ := pyRound_two_shape
    (pyRound d.priceDraw 2 * choice DISCOUNTS d.discIdx)
  obtain ⟨a, ha⟩ := pyRound_two_shape d.priceDraw
  constructor
  · rw [hbq, ha]
    have hsub : (a : ℚ)/100 - (bq : ℚ)/100 = ((a - bq : ℤ) : ℚ)/100 := by
      push_cast
      ring
    rw [hsub]
    exact pyRound_hundredth _
  · have h1 : pyRound (pyRound d.priceDraw 2 * choice DISCOUNTS d.discIdx) 2 ≤
        pyRound d.priceDraw 2 * choice DISCOUNTS d.discIdx + 1/200 :=
      pyRound_le_two _
    have h2 : d.priceDraw - 1/200 ≤ pyRound d.priceDraw 2 := le_pyRound_two _
    have horig : (999/200 : ℚ) ≤ pyRound d.priceDraw 2 := by linarith
    have hmul : pyRound d.priceDraw 2 * choice DISCOUNTS d.discIdx ≤
        pyRound d.priceDraw 2 * (4/5) :=
      mul_le_mul_of_nonneg_left hddB.2 (by linarith)
    linarith

/-- Witness for C7 at a concrete valid draw. -/
theorem c7_witness :
    MealDraws.Valid ⟨0, 10, 0, 4, 2, 2, 6, 1, 2, 4⟩ ∧
    ((generate_meal_record ⟨739548, 11, 45, 0⟩
        ⟨0, 10, 0, 4, 2, 2, 6, 1, 2, 4⟩).actualAmount =
      (generate_meal_record ⟨739548, 11, 45, 0⟩
        ⟨0, 10, 0, 4, 2, 2, 6, 1, 2, 4⟩).originalAmount -
        (generate_meal_record ⟨739548, 11, 45, 0⟩
          ⟨0, 10, 0, 4, 2, 2, 6, 1, 2, 4⟩).subsidy ∧
    (generate_meal_record ⟨739548, 11, 45, 0⟩
        ⟨0, 10, 0, 4, 2, 2, 6, 1, 2, 4⟩).subsidy <
      (generate_meal_record ⟨739548, 11, 45, 0⟩
        ⟨0, 10, 0, 4, 2, 2, 6, 1, 2, 4⟩).originalAmount) := by
  have hv : MealDraws.Valid ⟨0, 10, 0, 4, 2, 2, 6, 1, 2, 4⟩ := by
    refine ⟨by norm_num, ?_, ?_, by norm_num, by norm_num, by norm_num, by norm_num,
      by norm_num, by norm_num, by norm_num, by norm_num, by norm_num, by norm_num,
      by norm_num⟩
    · exact show (5 : ℚ) ≤ 10 by norm_num
    · exact show (10 : ℚ) ≤ 15 by norm_num
  exact ⟨hv, c7_theorem ⟨739548, 11, 45, 0⟩ ⟨0, 10, 0, 4, 2, 2, 6, 1, 2, 4⟩ hv⟩

end HR
